import Mathlib

/-!
Verification of the tracing/annotation core of the `django-mini-4-view`
repository, shallowly embedded in Lean 4.

The embedded code:
- `mini_4_view/logs.py` — the functions `start_end_log`, `message_log`
  and `level_log`;
- `account/views.py` — the body of `CustomGenericAPIView.get`, which
  dispatches a GET request either to `retrieve` or to `list` depending on
  the `key` routing argument.

Modelling conventions.  A Python function object is a record carrying its
`__name__`, the optional `log_level` / `log_message` attributes the
annotators may have attached, and its calling behaviour.  A call takes the
receiver `self`, a positional-argument list and a keyword-argument
association list, and produces a `CallResult`: the text the call wrote to
standard output together with either a return value or a propagating
exception.  Python `print` appends a newline; an f-string renders values
through their `str`/`repr` conversion, modelled by the `PyStr` class.
-/

namespace Mini4View

/-- A Python exception value, identified by type name and message. -/
structure PyExc where
  ty : String
  msg : String
deriving DecidableEq, Repr

/-- Outcome of one Python call: the text written to standard output while
the call ran, and either the returned value or the exception that
propagated out of it. -/
structure CallResult (β : Type) where
  out : String
  res : Except PyExc β
deriving Repr

/-- Python `print(s)`: writes `s` followed by a newline. -/
def pyPrint (s : String) : String :=
  s ++ "\n"

/-- Repetition of a string, `n` copies of `s` appended left to right. -/
def strRepeat (n : Nat) (s : String) : String :=
  match n with
  | 0 => ""
  | k + 1 => s ++ strRepeat k s

/-- Python `n * s` for an integer `n` and a string `s`: `n` copies of `s`,
and the empty string when `n ≤ 0`. -/
def pyStrMul (n : Int) (s : String) : String :=
  strRepeat n.toNat s

/-- Python string rendering of a value, as used by f-string interpolation
and by tuple/dict display (the `str` and `repr` conversions coincide on
the value types instantiated here). -/
class PyStr (α : Type) where
  str : α → String

instance : PyStr Int :=
  ⟨fun n => toString n⟩

instance : PyStr Nat :=
  ⟨fun n => toString n⟩

/-- Python display of a tuple of positional arguments: `()`, `(a,)`,
`(a, b)`, and so on. -/
def strTuple {υ : Type} [PyStr υ] (args : List υ) : String :=
  match args with
  | [] => "()"
  | [a] => "(" ++ PyStr.str a ++ ",)"
  | _ => "(" ++ String.intercalate ", " (args.map PyStr.str) ++ ")"

/-- Python display of a keyword-argument dict with string keys. -/
def strDict {υ : Type} [PyStr υ] (kwargs : List (String × υ)) : String :=
  "\x7b" ++
    String.intercalate ", "
      (kwargs.map (fun kv => "\x27" ++ kv.1 ++ "\x27: " ++ PyStr.str kv.2)) ++
    "\x7d"

/-- A Python function object as used in `logs.py`: its `__name__`, the
optional `log_level` and `log_message` attributes that `level_log` and
`message_log` may have attached, and its calling behaviour on a receiver,
positional arguments and keyword arguments. -/
structure PyFunc (σ υ β : Type) where
  name : String
  log_level : Option Int
  log_message : Option String
  call : σ → List υ → List (String × υ) → CallResult β

/-- Embedding of `start_end_log` from `mini_4_view/logs.py`.  It wraps
`func` in `inner(self, *args, **kwargs)`, which reads `log_message` and
`log_level` off `func` with `getattr` defaults `''` and `0`, prints the
start line, delegates to `func` with the receiver and all arguments
unchanged, prints the end line on normal return, and returns the result.
If `func` raises, the exception propagates and no end line is printed. -/
def start_end_log {σ υ β : Type} [PyStr υ] [PyStr β]
    (func : PyFunc σ υ β) : PyFunc σ υ β where
  name := "inner"
  log_level := none
  log_message := none
  call := fun self args kwargs =>
    let log_message := func.log_message.getD ""
    let log_level := func.log_level.getD 0
    let log_level_spaces := pyStrMul log_level "  "
    let startOut := pyPrint ("\n" ++ log_level_spaces ++ "+++[" ++ func.name
      ++ " <- " ++ strTuple args ++ " - " ++ strDict kwargs ++ "]")
    let r := func.call self args kwargs
    match r.res with
    | Except.error e => ⟨startOut ++ r.out, Except.error e⟩
    | Except.ok result =>
        ⟨startOut ++ r.out ++ pyPrint (log_level_spaces ++ "---[" ++ func.name
            ++ " -> " ++ PyStr.str result ++ "]" ++ "\n"),
          Except.ok result⟩

/-- Embedding of `message_log` from `mini_4_view/logs.py`: attaches the
message as the `log_message` attribute and returns the callable itself,
otherwise unmodified. -/
def message_log {σ υ β : Type} (message : String) (func : PyFunc σ υ β) :
    PyFunc σ υ β :=
  { func with log_message := some message }

/-- Embedding of `level_log` from `mini_4_view/logs.py`: attaches the
level as the `log_level` attribute and returns the callable itself,
otherwise unmodified. -/
def level_log {σ υ β : Type} (level : Int) (func : PyFunc σ υ β) :
    PyFunc σ υ β :=
  { func with log_level := some level }

/-- Purely positional invocation of a function defined as
`inner(self, *args, **kwargs)`: the first positional argument binds
`self`, the rest become `args`; with no positional argument supplied
Python raises a `TypeError` before the body runs. -/
def callPositional {υ β : Type} (g : PyFunc υ υ β) (pos : List υ)
    (kwargs : List (String × υ)) : CallResult β :=
  match pos with
  | [] => ⟨"", Except.error
      ⟨"TypeError",
        g.name ++ "() missing 1 required positional argument: "
          ++ "\x27self\x27"⟩⟩
  | self :: args => g.call self args kwargs

/-- Which handler the body of `CustomGenericAPIView.get` delegates to. -/
inductive GetPath where
  | retrieve
  | list
deriving DecidableEq, Repr

/-- The two handlers visible to `CustomGenericAPIView.get`:
`self.retrieve` and `self.list`. -/
structure ViewHandlers (ρ β : Type) where
  retrieve : ρ → β
  list : ρ → β

/-- Python truthiness of the `key` argument of `get`, which is bound to
`None` (no key in the URL) or to the integer captured by `<int:key>`:
`None` and `0` are falsy, every other integer is truthy. -/
def pyTruthyOptInt : Option Int → Bool
  | none => false
  | some k => k != 0

/-- Embedding of the body of `CustomGenericAPIView.get` from
`account/views.py`: `if key: return self.retrieve(request) else:
return self.list(request)`. -/
def CustomGenericAPIView.get {ρ β : Type} (self : ViewHandlers ρ β)
    (request : ρ) (key : Option Int) : β :=
  if pyTruthyOptInt key then self.retrieve request else self.list request

/-- Indentation by `2 * n` copies of the single space character, the
shape in which the specification states the indentation requirement. -/
def indentSpaces (n : Nat) : String :=
  strRepeat (2 * n) " "

/-- The string `n * '  '` computed by the tracer equals `2 * n` single
space characters. -/
theorem pyStrMul_two_spaces (n : Nat) :
    pyStrMul (n : Int) "  " = indentSpaces n := by
  have aux : ∀ m : Nat, strRepeat m "  " = strRepeat (2 * m) " " := by
    intro m
    induction m with
    | zero => rfl
    | succ k ih =>
        have h2 : 2 * (k + 1) = 2 * k + 1 + 1 := by omega
        rw [h2, strRepeat, strRepeat, strRepeat, ih, ← String.append_assoc]
        rfl
  unfold pyStrMul indentSpaces
  rw [Int.toNat_natCast n, aux n]

/-- A probe pair of handlers recording which of `retrieve` or `list` the
body of `get` invoked. -/
def pathProbe : ViewHandlers Int GetPath :=
  ⟨fun _ => GetPath.retrieve, fun _ => GetPath.list⟩

/-- C1: characterisation of `CustomGenericAPIView.get`.  With no key the
list path is taken and with a nonzero integer key the retrieve path is
taken; but with the integer key `0` — which the URL pattern
`APIView/<int:key>/` does match — the truthiness test `if key:` is false
and the list path is taken, contradicting the claim that a supplied
integer key, `0` included, always triggers the retrieve path. -/
theorem C1_get_key_zero_takes_list_path {ρ β : Type}
    (self : ViewHandlers ρ β) (request : ρ) :
    CustomGenericAPIView.get self request none = self.list request ∧
    CustomGenericAPIView.get self request (some 0) = self.list request ∧
    ∀ k : Int, k ≠ 0 →
      CustomGenericAPIView.get self request (some k) = self.retrieve request := by
  refine ⟨rfl, by simp [CustomGenericAPIView.get, pyTruthyOptInt], fun k hk => ?_⟩
  simp [CustomGenericAPIView.get, pyTruthyOptInt, hk]

/-- C1 witness: the characterisation instantiated at the probe handlers,
with the nonzero-key hypothesis discharged at key `7`. -/
theorem C1_get_key_zero_takes_list_path_witness :
    CustomGenericAPIView.get pathProbe 0 (some 0) = GetPath.list ∧
    CustomGenericAPIView.get pathProbe 0 (some 7) = GetPath.retrieve :=
  ⟨(C1_get_key_zero_takes_list_path pathProbe 0).2.1,
    (C1_get_key_zero_takes_list_path pathProbe 0).2.2 7 (by decide)⟩

/-- C2: exact trace format.  For a callable carrying level metadata `n`
whose body returns normally, the wrapped call writes the start line — a
newline, exactly `2 * n` space characters, then
`+++[name <- args - kwargs]` — before the body runs, and the end line —
exactly `2 * n` space characters, then `---[name -> result]` and a
trailing newline — after it completes, then returns the result. -/
theorem C2_trace_line_format {σ υ β : Type} [PyStr υ] [PyStr β]
    (f : PyFunc σ υ β) (n : Nat) (hl : f.log_level = some (n : Int))
    (self : σ) (args : List υ) (kwargs : List (String × υ))
    (o : String) (r : β)
    (hc : f.call self args kwargs = ⟨o, Except.ok r⟩) :
    (start_end_log f).call self args kwargs =
      ⟨pyPrint ("\n" ++ indentSpaces n ++ "+++[" ++ f.name ++ " <- "
          ++ strTuple args ++ " - " ++ strDict kwargs ++ "]")
        ++ o
        ++ pyPrint (indentSpaces n ++ "---[" ++ f.name ++ " -> "
          ++ PyStr.str r ++ "]" ++ "\n"),
        Except.ok r⟩ := by
  simp [start_end_log, hl, hc, pyStrMul_two_spaces]

/-- A concrete traced function for the witnesses: name `f`, level `2`
attached, a body that prints nothing and returns the receiver plus the
first positional argument. -/
def exF : PyFunc Int Int Int where
  name := "f"
  log_level := some 2
  log_message := none
  call := fun self args _ => ⟨"", Except.ok (self + args.headD 0)⟩

/-- C2 witness: the format theorem evaluated on `exF` at level `2`,
receiver `10`, positional arguments `(1, 2)` and keyword argument
`k = 3`. -/
theorem C2_trace_line_format_witness :
    (start_end_log exF).call 10 [1, 2] [("k", 3)] =
      ⟨pyPrint ("\n" ++ indentSpaces 2 ++ "+++[" ++ exF.name ++ " <- "
          ++ strTuple [(1 : Int), 2] ++ " - " ++ strDict [("k", (3 : Int))] ++ "]")
        ++ ""
        ++ pyPrint (indentSpaces 2 ++ "---[" ++ exF.name ++ " -> "
          ++ PyStr.str (11 : Int) ++ "]" ++ "\n"),
        Except.ok 11⟩ :=
  C2_trace_line_format exF 2 rfl 10 [1, 2] [("k", 3)] "" 11 rfl

/-- C3: when the body raises, the wrapped call writes the start line (and
whatever the body itself wrote) but no end line, and the very same
exception propagates to the caller; the embedding is a pure function, so
repeated invocations fail identically. -/
theorem C3_exception_propagates_without_end_line {σ υ β : Type}
    [PyStr υ] [PyStr β] (f : PyFunc σ υ β) (self : σ) (args : List υ)
    (kwargs : List (String × υ)) (o : String) (e : PyExc)
    (hc : f.call self args kwargs = ⟨o, Except.error e⟩) :
    (start_end_log f).call self args kwargs =
      ⟨pyPrint ("\n" ++ pyStrMul (f.log_level.getD 0) "  " ++ "+++[" ++ f.name
          ++ " <- " ++ strTuple args ++ " - " ++ strDict kwargs ++ "]") ++ o,
        Except.error e⟩ := by
  simp [start_end_log, hc]

/-- A concrete traced function whose body always raises `ValueError`. -/
def exErr : PyFunc Int Int Int where
  name := "boom"
  log_level := some 1
  log_message := none
  call := fun _ _ _ => ⟨"", Except.error ⟨"ValueError", "bad"⟩⟩

/-- C3 witness: the propagation theorem evaluated on `exErr`. -/
theorem C3_exception_propagates_without_end_line_witness :
    (start_end_log exErr).call 0 [4] [] =
      ⟨pyPrint ("\n" ++ pyStrMul (exErr.log_level.getD 0) "  " ++ "+++["
          ++ exErr.name ++ " <- " ++ strTuple [(4 : Int)] ++ " - "
          ++ strDict ([] : List (String × Int)) ++ "]") ++ "",
        Except.error ⟨"ValueError", "bad"⟩⟩ :=
  C3_exception_propagates_without_end_line exErr 0 [4] [] ""
    ⟨"ValueError", "bad"⟩ rfl

/-- C4: the wrapped form delegates with receiver and arguments unchanged
and returns exactly the value the body returned. -/
theorem C4_return_value_preserved {σ υ β : Type} [PyStr υ] [PyStr β]
    (f : PyFunc σ υ β) (self : σ) (args : List υ)
    (kwargs : List (String × υ)) (o : String) (r : β)
    (hc : f.call self args kwargs = ⟨o, Except.ok r⟩) :
    ((start_end_log f).call self args kwargs).res = Except.ok r := by
  simp [start_end_log, hc]

/-- C4 witness: the wrapped `exF` at receiver `10` and argument `1`
returns exactly `Except.ok 11`, the value the body returned. -/
theorem C4_return_value_preserved_witness :
    ((start_end_log exF).call 10 [1] []).res = Except.ok 11 :=
  C4_return_value_preserved exF 10 [1] [] "" 11 rfl

/-- A concrete traced function with no metadata attached. -/
def exPlain : PyFunc Int Int Int where
  name := "g"
  log_level := none
  log_message := none
  call := fun self _ _ => ⟨"", Except.ok self⟩

/-- C5: when neither `log_level` nor `log_message` is attached, the
wrapped call does not fail on their absence: it behaves exactly as if
level `0` and the empty message had been attached, and its result is
precisely the result of the body. -/
theorem C5_missing_metadata_defaults {σ υ β : Type} [PyStr υ] [PyStr β]
    (f : PyFunc σ υ β) (hl : f.log_level = none) (hm : f.log_message = none)
    (self : σ) (args : List υ) (kwargs : List (String × υ)) :
    (start_end_log f).call self args kwargs =
      (start_end_log (level_log 0 (message_log "" f))).call self args kwargs ∧
    ((start_end_log f).call self args kwargs).res =
      (f.call self args kwargs).res := by
  constructor
  · simp [start_end_log, level_log, message_log, hl, hm]
  · cases h : (f.call self args kwargs).res with
    | error e => simp [start_end_log, h]
    | ok r => simp [start_end_log, h]

/-- C5 witness: the default-metadata theorem evaluated on `exPlain`. -/
theorem C5_missing_metadata_defaults_witness :
    (start_end_log exPlain).call 3 [] [] =
      (start_end_log (level_log 0 (message_log "" exPlain))).call 3 [] [] ∧
    ((start_end_log exPlain).call 3 [] []).res = (exPlain.call 3 [] []).res :=
  C5_missing_metadata_defaults exPlain rfl rfl 3 [] []

/-- C6: the message tag is attached but never incorporated: wrapping the
same callable annotated with two different messages (level held equal)
yields identical printed output and identical results on every
invocation. -/
theorem C6_message_tag_never_in_output {σ υ β : Type} [PyStr υ] [PyStr β]
    (f : PyFunc σ υ β) (s1 s2 : String) (self : σ) (args : List υ)
    (kwargs : List (String × υ)) :
    (start_end_log (message_log s1 f)).call self args kwargs =
      (start_end_log (message_log s2 f)).call self args kwargs := rfl

/-- C7: the annotators return the callable unmodified apart from the
metadata attribute: name and calling behaviour are unaltered by
`level_log n` and by `message_log s`, so no wrapping takes place. -/
theorem C7_annotators_attach_metadata_only {σ υ β : Type}
    (n : Int) (s : String) (f : PyFunc σ υ β) :
    (level_log n f).call = f.call ∧ (level_log n f).name = f.name ∧
    (message_log s f).call = f.call ∧ (message_log s f).name = f.name :=
  ⟨rfl, rfl, rfl, rfl⟩

/-- C8: the two annotators commute under the tracer: attaching level then
message, or message then level, and then wrapping with `start_end_log`
gives identical output and results on every invocation. -/
theorem C8_annotators_commute {σ υ β : Type} [PyStr υ] [PyStr β]
    (f : PyFunc σ υ β) (n : Int) (s : String) (self : σ) (args : List υ)
    (kwargs : List (String × υ)) :
    (start_end_log (message_log s (level_log n f))).call self args kwargs =
      (start_end_log (level_log n (message_log s f))).call self args kwargs :=
  rfl

/-- C9: annotating outside the tracer is ineffective: `level_log n`
applied to the already-wrapped callable leaves the wrapped behaviour
untouched, and when the original callable carries no level metadata the
output falls back to the default level `0`, identical to having wrapped
`level_log 0 f`. -/
theorem C9_outer_level_annotation_is_ignored {σ υ β : Type} [PyStr υ]
    [PyStr β] (f : PyFunc σ υ β) (n : Int) (hl : f.log_level = none)
    (self : σ) (args : List υ) (kwargs : List (String × υ)) :
    (level_log n (start_end_log f)).call self args kwargs =
      (start_end_log f).call self args kwargs ∧
    (level_log n (start_end_log f)).call self args kwargs =
      (start_end_log (level_log 0 f)).call self args kwargs := by
  refine ⟨rfl, ?_⟩
  simp [start_end_log, level_log, hl]

/-- C9 witness: the outer-annotation theorem evaluated on `exPlain` with
outer level `5`. -/
theorem C9_outer_level_annotation_is_ignored_witness :
    (level_log 5 (start_end_log exPlain)).call 0 [] [] =
      (start_end_log exPlain).call 0 [] [] ∧
    (level_log 5 (start_end_log exPlain)).call 0 [] [] =
      (start_end_log (level_log 0 exPlain)).call 0 [] [] :=
  C9_outer_level_annotation_is_ignored exPlain 5 rfl 0 [] []

/-- C10: under positional invocation the first positional argument binds
the receiver: it is passed through unchanged as the first argument of the
wrapped callable, the printed tuple shows only the remaining positional
arguments, and a call with zero positional arguments raises `TypeError`
instead of running the body. -/
theorem C10_receiver_not_printed {υ β : Type} [PyStr υ] [PyStr β]
    (f : PyFunc υ υ β) (self : υ) (args : List υ)
    (kwargs : List (String × υ)) (o : String) (r : β)
    (hc : f.call self args kwargs = ⟨o, Except.ok r⟩) :
    callPositional (start_end_log f) (self :: args) kwargs =
      ⟨pyPrint ("\n" ++ pyStrMul (f.log_level.getD 0) "  " ++ "+++[" ++ f.name
          ++ " <- " ++ strTuple args ++ " - " ++ strDict kwargs ++ "]")
        ++ o
        ++ pyPrint (pyStrMul (f.log_level.getD 0) "  " ++ "---[" ++ f.name
          ++ " -> " ++ PyStr.str r ++ "]" ++ "\n"),
        Except.ok r⟩ ∧
    (callPositional (start_end_log f) [] kwargs).res =
      Except.error ⟨"TypeError",
        "inner() missing 1 required positional argument: "
          ++ "\x27self\x27"⟩ := by
  constructor
  · simp [callPositional, start_end_log, hc]
  · rfl

/-- C10 witness: positional invocation of the wrapped `exF` on the
positional list `(10, 1)` binds receiver `10`, prints only `(1,)`, and
returns `11`; the empty positional list raises `TypeError`. -/
theorem C10_receiver_not_printed_witness :
    callPositional (start_end_log exF) [10, 1] [] =
      ⟨pyPrint ("\n" ++ pyStrMul (exF.log_level.getD 0) "  " ++ "+++["
          ++ exF.name ++ " <- " ++ strTuple [(1 : Int)] ++ " - "
          ++ strDict ([] : List (String × Int)) ++ "]")
        ++ ""
        ++ pyPrint (pyStrMul (exF.log_level.getD 0) "  " ++ "---[" ++ exF.name
          ++ " -> " ++ PyStr.str (11 : Int) ++ "]" ++ "\n"),
        Except.ok 11⟩ ∧
    (callPositional (start_end_log exF) [] []).res =
      Except.error ⟨"TypeError",
        "inner() missing 1 required positional argument: "
          ++ "\x27self\x27"⟩ :=
  C10_receiver_not_printed exF 10 [1] [] "" 11 rfl

end Mini4View
